import Mathlib

/-!
Verification of the flyteadmin authentication-and-gateway front end.

The definitions below are a shallow embedding of the Go source:
  - `newGRPCServer`, `newHTTPServer`, `grpcHandlerFunc`, `serveGatewayInsecure`
    and `serveGatewaySecure` from the entrypoints serve command;
  - `OAuth2Metadata` and `FlyteClient` from
    pkg/auth/authzserver/metadata_provider.go;
  - `postToIdp` (whose body is exercised by TestPostToIdp).
Stateful and effectful behaviour (listener binding, goroutine start, outbound
HTTP) is embedded as explicit event traces and as function parameters standing
for the injected transport, so every definition is executable.
-/

namespace FlyteAdmin

/-- Boolean test that `sub` occurs as a contiguous sublist of `s`;
character-level model of Go's strings.Contains. -/
def listContainsSub (s sub : List Char) : Bool :=
  match s with
  | [] => sub.isEmpty
  | _ :: t => sub.isPrefixOf s || listContainsSub t sub

/-- String containment, the model of strings.Contains used by grpcHandlerFunc. -/
def containsSubstr (s sub : String) : Bool :=
  listContainsSub s.data sub.data

/-- Boolean test that the last character of `l` is `c`. -/
def listEndsWith (l : List Char) (c : Char) : Bool :=
  match l.getLast? with
  | some d => d == c
  | none => false

/-- Modelled from the spec: Go net/url URL.ResolveReference, restricted to the
shapes this code resolves (an absolute base URI and a relative path reference).
An absolute reference replaces the base; a relative one is appended to it. -/
def resolveReference (base ref : String) : String :=
  if containsSubstr ref "://" then ref
  else if listEndsWith base.data '/' then base ++ ref
  else base ++ "/" ++ ref

/-! ## Configuration (config.ServerConfig and authConfig.Config) -/

/-- Security section of the server configuration. -/
structure SecurityConfig where
  secure : Bool
  useAuth : Bool
deriving DecidableEq, Repr

/-- The slice of config.ServerConfig the serve command reads. -/
structure ServerConfig where
  security : SecurityConfig
  grpcHostAddress : String
  hostAddress : String
deriving DecidableEq, Repr

/-- Authorization-server mode: authConfig.AuthorizationServerTypeSelf or
the external (default) mode. -/
inductive AuthorizationServerType
  | Self
  | External
deriving DecidableEq, Repr

/-- Third-party client registration block of the auth config. -/
structure FlyteClientConfig where
  clientID : String
  redirectURI : String
  scopes : List String
deriving DecidableEq, Repr

/-- ThirdPartyConfigOptions of the auth config. -/
structure ThirdPartyConfigOptions where
  flyteClientConfig : FlyteClientConfig
deriving DecidableEq, Repr

/-- External authorization server block; BaseURL is kept in string form. -/
structure ExternalAuthorizationServer where
  baseURL : String
deriving DecidableEq, Repr

/-- AppAuth section of the auth config. -/
structure AppAuthConfig where
  authServerType : AuthorizationServerType
  externalAuthServer : ExternalAuthorizationServer
  thirdParty : ThirdPartyConfigOptions
deriving DecidableEq, Repr

/-- OpenID options of the user-auth section; BaseURL in string form. -/
structure OpenIDOptions where
  baseURL : String
deriving DecidableEq, Repr

/-- UserAuth section of the auth config. -/
structure UserAuthConfig where
  openID : OpenIDOptions
deriving DecidableEq, Repr

/-- The slice of authConfig.Config the metadata provider reads. -/
structure AuthConfig where
  appAuth : AppAuthConfig
  userAuth : UserAuthConfig
  httpPublicUri : String
  grpcAuthorizationHeader : String
deriving DecidableEq, Repr

/-! ## Metadata provider (pkg/auth/authzserver/metadata_provider.go) -/

/-- Modelled from the spec: pkg/auth's global catch-all scope constant
auth.ScopeAll, referenced by the self-mode document; its definition is not
under src/. -/
def ScopeAll : String := "all"

/-- Modelled from the spec: the relative URL constants of the authzserver
package (authorizeRelativeUrl); their definitions are not under src/. -/
def authorizeRelativeUrl : String := "oauth2/authorize"

/-- Modelled from the spec: tokenRelativeUrl of the authzserver package. -/
def tokenRelativeUrl : String := "oauth2/token"

/-- Modelled from the spec: jsonWebKeysUrl of the authzserver package. -/
def jsonWebKeysUrl : String := ".well-known/jwks.json"

/-- Modelled from the spec: oauth2MetadataEndpoint, the well-known relative
discovery path resolved against a base URL in external mode. -/
def oauth2MetadataEndpoint : String := ".well-known/oauth-authorization-server"

/-- Modelled from the spec: supportedGrantTypes, the configured grant-type
list constant of the authzserver package; not under src/. -/
def supportedGrantTypes : List String :=
  ["client_credentials", "authorization_code", "refresh_token"]

/-- Modelled from the spec: GetIssuer derives the issuer URL from the
configured public base URI; its definition is not under src/. -/
def GetIssuer (cfg : AuthConfig) : String :=
  cfg.httpPublicUri

/-- The service.OAuth2MetadataResponse document, field for field. -/
structure OAuth2MetadataResponse where
  issuer : String
  authorizationEndpoint : String
  tokenEndpoint : String
  jwksUri : String
  codeChallengeMethodsSupported : List String
  responseTypesSupported : List String
  grantTypesSupported : List String
  scopesSupported : List String
  tokenEndpointAuthMethodsSupported : List String
deriving DecidableEq, Repr

/-- Outcome of the single outbound http.Get in external mode: a transport
error, or a raw response body. -/
inductive FetchResult
  | transportError
  | body (raw : String)
deriving DecidableEq, Repr

/-- The discovery URL external mode fetches: resolved against the external
authorization-server base URL when its string form is non-empty (the source's
len(BaseURL.String()) > 0 test), else against the OpenID base URL. -/
def externalMetadataURL (cfg : AuthConfig) : String :=
  if 0 < cfg.appAuth.externalAuthServer.baseURL.length then
    resolveReference cfg.appAuth.externalAuthServer.baseURL oauth2MetadataEndpoint
  else
    resolveReference cfg.userAuth.openID.baseURL oauth2MetadataEndpoint

/-- OAuth2MetadataProvider.OAuth2Metadata. The outbound transport (http.Get)
and the response decoder (unmarshalResp, whose body is not under src/) are
passed in as functions; the second component of the result is the list of
URLs actually fetched, so the absence of network I/O is observable. -/
def OAuth2Metadata (cfg : AuthConfig) (httpGet : String → FetchResult)
    (unmarshalResp : String → Option OAuth2MetadataResponse) :
    Except String OAuth2MetadataResponse × List String :=
  match cfg.appAuth.authServerType with
  | .Self =>
    (.ok {
      issuer := GetIssuer cfg
      authorizationEndpoint := resolveReference cfg.httpPublicUri authorizeRelativeUrl
      tokenEndpoint := resolveReference cfg.httpPublicUri tokenRelativeUrl
      jwksUri := resolveReference cfg.httpPublicUri jsonWebKeysUrl
      codeChallengeMethodsSupported := ["S256"]
      responseTypesSupported := ["code", "token", "code token"]
      grantTypesSupported := supportedGrantTypes
      scopesSupported := [ScopeAll]
      tokenEndpointAuthMethodsSupported := ["client_secret_basic"] }, [])
  | .External =>
    match httpGet (externalMetadataURL cfg) with
    | .transportError => (.error "transport error", [externalMetadataURL cfg])
    | .body raw =>
      match unmarshalResp raw with
      | none => (.error "failed to unmarshal metadata", [externalMetadataURL cfg])
      | some resp => (.ok resp, [externalMetadataURL cfg])

/-- The service.FlyteClientResponse descriptor. -/
structure FlyteClientResponse where
  clientId : String
  redirectUri : String
  scopes : List String
  authorizationMetadataKey : String
deriving DecidableEq, Repr

/-- OAuth2MetadataProvider.FlyteClient: projection of the configuration into
the client descriptor; the Go method always returns a nil error. -/
def FlyteClient (cfg : AuthConfig) : Except String FlyteClientResponse :=
  .ok {
    clientId := cfg.appAuth.thirdParty.flyteClientConfig.clientID
    redirectUri := cfg.appAuth.thirdParty.flyteClientConfig.redirectURI
    scopes := cfg.appAuth.thirdParty.flyteClientConfig.scopes
    authorizationMetadataKey := cfg.grpcAuthorizationHeader }

/-! ## gRPC server construction (newGRPCServer) -/

/-- The unary interceptors newGRPCServer can place in its chain. -/
inductive Interceptor
  | prometheus
  | customMetadata
  | authentication
  | logging
deriving DecidableEq, Repr

/-- The observable wiring of the grpc.Server newGRPCServer builds: its
chained unary interceptors and its stream interceptors, in order. -/
structure GrpcServer where
  unaryInterceptors : List Interceptor
  streamInterceptors : List Interceptor
deriving DecidableEq, Repr

/-- newGRPCServer: with auth the unary chain is prometheus, custom metadata,
authentication, logging; without auth it is prometheus alone. -/
def newGRPCServer (cfg : ServerConfig) : GrpcServer :=
  if cfg.security.useAuth then
    { unaryInterceptors :=
        [.prometheus, .customMetadata, .authentication, .logging]
      streamInterceptors := [.prometheus] }
  else
    { unaryInterceptors := [.prometheus]
      streamInterceptors := [.prometheus] }

/-! ## HTTP router construction (newHTTPServer) -/

/-- The slice of the AuthenticationContext the router reads: the userinfo
URL, absent when the pointer is nil. -/
structure AuthenticationContext where
  userInfoUrl : Option String
deriving DecidableEq, Repr

/-- The handlers newHTTPServer registers on the http.ServeMux. The gateway
mux records whether the cookie-to-metadata translation option was installed. -/
inductive HandlerKind
  | healthCheck
  | openapiSpec
  | loginHandler
  | callbackHandler
  | meHandler
  | metadataRedirectHandler
  | gatewayMux (cookieToMetadata : Bool)
deriving DecidableEq, Repr

/-- The auth handlers of the router (login, callback, me, metadata redirect). -/
def isAuthHandler : HandlerKind → Bool
  | .loginHandler => true
  | .callbackHandler => true
  | .meHandler => true
  | .metadataRedirectHandler => true
  | _ => false

/-- Modelled from the spec: auth.MetadataEndpoint, the discovery path the
metadata redirect handler is mounted on; its definition is not under src/. -/
def MetadataEndpoint : String := "/.well-known/oauth-authorization-server"

/-- The guard on installing the /me handler:
authContext.GetUserInfoUrl() != nil && authContext.GetUserInfoUrl().String() != "". -/
def userInfoConfigured (authContext : AuthenticationContext) : Bool :=
  match authContext.userInfoUrl with
  | some s => !(s == "")
  | none => false

/-- newHTTPServer: the ordered route table registered on the mux. Healthcheck
and openapi are registered unconditionally; the auth handlers and the
cookie-to-metadata gateway option only under useAuth; the gateway mux is
mounted at the root. -/
def newHTTPServer (cfg : ServerConfig) (authContext : AuthenticationContext) :
    List (String × HandlerKind) :=
  [("/healthcheck", .healthCheck), ("/api/v1/openapi", .openapiSpec)] ++
  (if cfg.security.useAuth then
    [("/login", .loginHandler), ("/callback", .callbackHandler)] ++
    (if userInfoConfigured authContext then [("/me", .meHandler)] else []) ++
    [(MetadataEndpoint, .metadataRedirectHandler)]
  else []) ++
  [("/", .gatewayMux cfg.security.useAuth)]

/-- Modelled from the spec: net/http ServeMux dispatch restricted to the
patterns this router registers — an exact-path match wins, otherwise the
rooted pattern "/" (the only registered pattern ending in a slash) catches
the request. -/
def muxDispatch (routes : List (String × HandlerKind)) (path : String) :
    Option HandlerKind :=
  match routes.find? (fun r => r.1 == path) with
  | some r => some r.2
  | none => (routes.find? (fun r => r.1 == "/")).map (fun r => r.2)

/-! ## Protocol dispatch and startup (grpcHandlerFunc, serveGateway*) -/

/-- Where the combined secure handler sends a request. -/
inductive Dispatched
  | grpcServer
  | httpRouter
deriving DecidableEq, Repr

/-- The fields of the inbound request grpcHandlerFunc inspects. -/
structure HttpRequest where
  protoMajor : Nat
  contentType : String
deriving DecidableEq, Repr

/-- grpcHandlerFunc: a request goes to the gRPC server exactly when its
protocol major version is 2 and its Content-Type contains "application/grpc";
every other request goes to the HTTP router. -/
def grpcHandlerFunc (r : HttpRequest) : Dispatched :=
  if r.protoMajor == 2 && containsSubstr r.contentType "application/grpc" then
    .grpcServer
  else
    .httpRouter

/-- Which fallible startup operations fail in a given run. -/
structure Scenario where
  certLoadFails : Bool
  authContextFails : Bool
  grpcListenFails : Bool
  registerFails : Bool
  httpListenFails : Bool
  combinedListenFails : Bool
deriving DecidableEq, Repr

/-- Observable startup events, in program order. -/
inductive Event
  | certLoadFailed
  | certLoaded
  | authContextFailed
  | authContextCreated
  | grpcListenFailed
  | grpcListening
  | grpcServing
  | registerFailed
  | httpServerCreated
  | httpListenFailed
  | httpServing
  | combinedListenFailed
  | combinedServing
  | aborted
deriving DecidableEq, Repr

/-- Events that mean a listener is serving traffic. -/
def serving : Event → Bool
  | .grpcServing => true
  | .httpServing => true
  | .combinedServing => true
  | _ => false

/-- serveGatewayInsecure as an event trace: the auth context is built only
under useAuth; the gRPC listener is bound and a goroutine starts serving it
before the HTTP router is registered and the HTTP listener is bound; any
error returns (aborts) at that point in the sequence. -/
def serveGatewayInsecure (cfg : ServerConfig) (s : Scenario) : List Event :=
  if cfg.security.useAuth && s.authContextFails then
    [.authContextFailed, .aborted]
  else
    (if cfg.security.useAuth then [.authContextCreated] else []) ++
    (if s.grpcListenFails then
      [.grpcListenFailed, .aborted]
    else
      [.grpcListening, .grpcServing] ++
      (if s.registerFails then
        [.registerFailed, .aborted]
      else
        [.httpServerCreated] ++
        (if s.httpListenFails then
          [.httpListenFailed, .aborted]
        else
          [.httpServing])))

/-- The single combined server secure mode runs: one address, one handler. -/
structure SecureServer where
  addr : String
  handler : HttpRequest → Dispatched

/-- serveGatewaySecure as an event trace plus, on success, the single TLS
server it runs: certificates first, then the auth context (only under
useAuth), then the gRPC server and HTTP router are built, then one TCP
listener is bound on the host address and one http.Server serves both
protocols on it through grpcHandlerFunc. -/
def serveGatewaySecure (cfg : ServerConfig) (s : Scenario) :
    List Event × Option SecureServer :=
  if s.certLoadFails then
    ([.certLoadFailed, .aborted], none)
  else if cfg.security.useAuth && s.authContextFails then
    ([.certLoaded, .authContextFailed, .aborted], none)
  else
    let pre := [Event.certLoaded] ++
      (if cfg.security.useAuth then [Event.authContextCreated] else [])
    if s.registerFails then
      (pre ++ [.registerFailed, .aborted], none)
    else if s.combinedListenFails then
      (pre ++ [.httpServerCreated, .combinedListenFailed, .aborted], none)
    else
      (pre ++ [.httpServerCreated, .combinedServing],
       some { addr := cfg.hostAddress, handler := grpcHandlerFunc })

/-! ## Userinfo retrieval (postToIdp) -/

/-- The identity claims of the userinfo response (UserInfoResponse). -/
structure UserInfoResponse where
  sub : String
  name : String
  preferredUsername : String
  givenName : String
  familyName : String
deriving DecidableEq, Repr

/-- An IdP userinfo HTTP response: its status code and, when the body is
JSON matching the claim schema, the decoded claims. -/
structure IdpResponse where
  statusCode : Nat
  jsonBody : Option UserInfoResponse
deriving DecidableEq, Repr

/-- Modelled from the spec: the body of postToIdp (FetchUserInfo) is not
under src/ (only TestPostToIdp is). Per the spec it fails with
IdentityProviderRejected on any HTTP status other than 200 regardless of
body, fails with IdentityProviderMalformed on a schema-mismatched body, and
otherwise decodes exactly the five claims. -/
def postToIdp (resp : IdpResponse) : Except String UserInfoResponse :=
  if resp.statusCode ≠ 200 then
    .error "IdentityProviderRejected"
  else
    match resp.jsonBody with
    | none => .error "IdentityProviderMalformed"
    | some u => .ok u

/-- Boolean error test on Except, used to state failure observably. -/
def isErr {ε α : Type} : Except ε α → Bool
  | .error _ => true
  | .ok _ => false

/-! ## Concrete fixtures used by witnesses and counterexamples -/

/-- A self-mode auth configuration with a configured client scope set. -/
def cfgSelf : AuthConfig :=
  { appAuth :=
      { authServerType := .Self
        externalAuthServer := { baseURL := "" }
        thirdParty :=
          { flyteClientConfig :=
              { clientID := "flytectl"
                redirectURI := "http://localhost:53593/callback"
                scopes := ["offline", "access_token"] } } }
    userAuth := { openID := { baseURL := "https://accounts.example.com" } }
    httpPublicUri := "https://flyte.example.com"
    grpcAuthorizationHeader := "flyte-authorization" }

/-- An external-mode auth configuration with a non-empty external base URL. -/
def cfgExternal : AuthConfig :=
  { appAuth :=
      { authServerType := .External
        externalAuthServer := { baseURL := "https://authserver.example.com" }
        thirdParty :=
          { flyteClientConfig :=
              { clientID := "flytectl"
                redirectURI := "http://localhost:53593/callback"
                scopes := ["all"] } } }
    userAuth := { openID := { baseURL := "https://accounts.example.com" } }
    httpPublicUri := "https://flyte.example.com"
    grpcAuthorizationHeader := "flyte-authorization" }

/-- A transport that always fails; used where no fetch may happen. -/
def dummyGet : String → FetchResult :=
  fun _ => .transportError

/-- A decoder that always fails; used where no decoding may happen. -/
def dummyUnmarshal : String → Option OAuth2MetadataResponse :=
  fun _ => none

/-- A concrete discovery document relayed by the external-mode witness. -/
def extDoc : OAuth2MetadataResponse :=
  { issuer := "https://authserver.example.com"
    authorizationEndpoint := "https://authserver.example.com/authorize"
    tokenEndpoint := "https://authserver.example.com/token"
    jwksUri := "https://authserver.example.com/jwks"
    codeChallengeMethodsSupported := ["S256", "plain"]
    responseTypesSupported := ["code"]
    grantTypesSupported := ["authorization_code"]
    scopesSupported := ["openid"]
    tokenEndpointAuthMethodsSupported := ["client_secret_post"] }

/-- A transport that returns a fixed raw body. -/
def extGet : String → FetchResult :=
  fun _ => .body "raw-discovery-document"

/-- A decoder that decodes the fixed raw body to `extDoc`. -/
def extUnmarshal : String → Option OAuth2MetadataResponse :=
  fun raw => if raw == "raw-discovery-document" then some extDoc else none

/-- A secure server configuration with authentication enabled. -/
def cfgAuthOn : ServerConfig :=
  { security := { secure := true, useAuth := true }
    grpcHostAddress := "0.0.0.0:8089"
    hostAddress := "0.0.0.0:8088" }

/-- An insecure server configuration with authentication disabled. -/
def cfgInsecureNoAuth : ServerConfig :=
  { security := { secure := false, useAuth := false }
    grpcHostAddress := "0.0.0.0:8089"
    hostAddress := "0.0.0.0:8088" }

/-- An authentication context with no userinfo URL configured. -/
def authCtxNoUserInfo : AuthenticationContext :=
  { userInfoUrl := none }

/-- An authentication context with a userinfo URL configured. -/
def authCtxWithUserInfo : AuthenticationContext :=
  { userInfoUrl := some "https://accounts.example.com/userinfo" }

/-- The run in which every startup operation succeeds. -/
def noFailScenario : Scenario :=
  { certLoadFails := false, authContextFails := false, grpcListenFails := false
    registerFails := false, httpListenFails := false, combinedListenFails := false }

/-- The run in which only certificate loading fails. -/
def certFailScenario : Scenario :=
  { certLoadFails := true, authContextFails := false, grpcListenFails := false
    registerFails := false, httpListenFails := false, combinedListenFails := false }

/-- The run in which only router registration fails. -/
def registerFailScenario : Scenario :=
  { certLoadFails := false, authContextFails := false, grpcListenFails := false
    registerFails := true, httpListenFails := false, combinedListenFails := false }

/-- The run in which only the HTTP listener bind fails. -/
def httpBindFailScenario : Scenario :=
  { certLoadFails := false, authContextFails := false, grpcListenFails := false
    registerFails := false, httpListenFails := true, combinedListenFails := false }

/-- The single server a successful secure startup runs. -/
def secureSrv : SecureServer :=
  { addr := "0.0.0.0:8088", handler := grpcHandlerFunc }

/-- A request with gRPC framing. -/
def grpcReq : HttpRequest :=
  { protoMajor := 2, contentType := "application/grpc+proto" }

/-! ## Helper lemmas -/

/-- grpcHandlerFunc picks the gRPC server exactly on HTTP/2 requests whose
Content-Type contains "application/grpc". -/
theorem grpcHandlerFunc_grpc_iff (r : HttpRequest) :
    grpcHandlerFunc r = .grpcServer ↔
      (r.protoMajor = 2 ∧ containsSubstr r.contentType "application/grpc" = true) := by
  by_cases h1 : r.protoMajor = 2 <;>
    by_cases h2 : containsSubstr r.contentType "application/grpc" = true <;>
      simp [grpcHandlerFunc, h1, h2]

/-- grpcHandlerFunc sends everything else to the HTTP router. -/
theorem grpcHandlerFunc_http (r : HttpRequest)
    (h : ¬(r.protoMajor = 2 ∧ containsSubstr r.contentType "application/grpc" = true)) :
    grpcHandlerFunc r = .httpRouter := by
  rcases he : grpcHandlerFunc r with _ | _
  · exact absurd ((grpcHandlerFunc_grpc_iff r).mp he) h
  · rfl

/-- In secure mode an aborting startup has no serving event in its trace. -/
theorem secure_abort_before_serving (cfg : ServerConfig) (s : Scenario) :
    Event.aborted ∈ (serveGatewaySecure cfg s).1 →
      ∀ e ∈ (serveGatewaySecure cfg s).1, serving e = false := by
  obtain ⟨⟨sec, ua⟩, ga, ha⟩ := cfg
  obtain ⟨c1, c2, c3, c4, c5, c6⟩ := s
  cases ua <;> cases c1 <;> cases c2 <;> cases c4 <;> cases c6 <;>
    simp [serveGatewaySecure, serving]

/-- In insecure mode an aborting startup never reaches HTTP serving. -/
theorem insecure_abort_no_httpServing (cfg : ServerConfig) (s : Scenario) :
    Event.aborted ∈ serveGatewayInsecure cfg s →
      Event.httpServing ∉ serveGatewayInsecure cfg s := by
  obtain ⟨⟨sec, ua⟩, ga, ha⟩ := cfg
  obtain ⟨c1, c2, c3, c4, c5, c6⟩ := s
  cases ua <;> cases c2 <;> cases c3 <;> cases c4 <;> cases c5 <;>
    simp [serveGatewayInsecure, serving]

/-- In insecure mode a failure before the gRPC bind leaves no serving event. -/
theorem insecure_early_failure_no_serving (cfg : ServerConfig) (s : Scenario) :
    (cfg.security.useAuth && s.authContextFails) = true ∨ s.grpcListenFails = true →
      ∀ e ∈ serveGatewayInsecure cfg s, serving e = false := by
  obtain ⟨⟨sec, ua⟩, ga, ha⟩ := cfg
  obtain ⟨c1, c2, c3, c4, c5, c6⟩ := s
  cases ua <;> cases c2 <;> cases c3 <;> cases c4 <;> cases c5 <;>
    simp [serveGatewayInsecure, serving]

/-- In insecure mode a registration or HTTP-bind failure aborts while the
gRPC listener is already serving. -/
theorem insecure_late_failure_partial (cfg : ServerConfig) (s : Scenario) :
    (cfg.security.useAuth && s.authContextFails) = false →
      s.grpcListenFails = false →
      (s.registerFails = true ∨ s.httpListenFails = true) →
      Event.grpcServing ∈ serveGatewayInsecure cfg s ∧
      Event.aborted ∈ serveGatewayInsecure cfg s := by
  obtain ⟨⟨sec, ua⟩, ga, ha⟩ := cfg
  obtain ⟨c1, c2, c3, c4, c5, c6⟩ := s
  cases ua <;> cases c2 <;> cases c3 <;> cases c4 <;> cases c5 <;>
    simp [serveGatewayInsecure, serving]

/-! ## Claims -/

/-- C1: when authentication is enabled, newGRPCServer chains the unary
interceptors prometheus, custom-metadata, authentication, logging in exactly
that order; when it is disabled, the chain is the prometheus interceptor
alone and the authentication interceptor is absent, not replaced by a
pass-through. -/
theorem C1_grpc_interceptor_chain :
    (∀ cfg : ServerConfig, cfg.security.useAuth = true →
      (newGRPCServer cfg).unaryInterceptors =
        [.prometheus, .customMetadata, .authentication, .logging]) ∧
    (∀ cfg : ServerConfig, cfg.security.useAuth = false →
      (newGRPCServer cfg).unaryInterceptors = [.prometheus] ∧
      Interceptor.authentication ∉ (newGRPCServer cfg).unaryInterceptors) := by
  constructor <;> intro cfg h <;> simp [newGRPCServer, h]

/-- Witness for C1 at concrete configurations. -/
theorem C1_grpc_interceptor_chain_witness :
    (newGRPCServer cfgAuthOn).unaryInterceptors =
      [.prometheus, .customMetadata, .authentication, .logging] ∧
    (newGRPCServer cfgInsecureNoAuth).unaryInterceptors = [.prometheus] ∧
    Interceptor.authentication ∉ (newGRPCServer cfgInsecureNoAuth).unaryInterceptors :=
  ⟨C1_grpc_interceptor_chain.1 cfgAuthOn rfl,
   (C1_grpc_interceptor_chain.2 cfgInsecureNoAuth rfl).1,
   (C1_grpc_interceptor_chain.2 cfgInsecureNoAuth rfl).2⟩

/-- C2: whenever secure startup reaches its serving state, it serves one
server on the configured host address whose per-request dispatch sends a
request to the gRPC server exactly when its protocol major version is 2 and
its Content-Type contains "application/grpc", and every other request to the
HTTP router. -/
theorem C2_secure_protocol_dispatch (cfg : ServerConfig) (s : Scenario)
    (srv : SecureServer)
    (h : (serveGatewaySecure cfg s).2 = some srv) (r : HttpRequest) :
    srv.addr = cfg.hostAddress ∧
    (srv.handler r = .grpcServer ↔
      (r.protoMajor = 2 ∧ containsSubstr r.contentType "application/grpc" = true)) ∧
    (¬(r.protoMajor = 2 ∧ containsSubstr r.contentType "application/grpc" = true) →
      srv.handler r = .httpRouter) := by
  have hsrv : srv = { addr := cfg.hostAddress, handler := grpcHandlerFunc } := by
    simp only [serveGatewaySecure] at h
    split at h
    · exact absurd h (by simp)
    · split at h
      · exact absurd h (by simp)
      · split at h
        · exact absurd h (by simp)
        · split at h
          · exact absurd h (by simp)
          · exact (Option.some_inj.mp h).symm
  subst hsrv
  exact ⟨rfl, grpcHandlerFunc_grpc_iff r, grpcHandlerFunc_http r⟩

/-- Witness for C2: the successful secure run at a concrete configuration. -/
theorem C2_secure_protocol_dispatch_witness :
    secureSrv.addr = cfgAuthOn.hostAddress ∧
    (secureSrv.handler grpcReq = .grpcServer ↔
      (grpcReq.protoMajor = 2 ∧
        containsSubstr grpcReq.contentType "application/grpc" = true)) ∧
    (¬(grpcReq.protoMajor = 2 ∧
        containsSubstr grpcReq.contentType "application/grpc" = true) →
      secureSrv.handler grpcReq = .httpRouter) :=
  C2_secure_protocol_dispatch cfgAuthOn noFailScenario secureSrv rfl grpcReq

/-- C9: FlyteClient projects client id, redirect URI, scopes and the
authorization-metadata key straight from the configuration and never
returns an error. -/
theorem C9_flyte_client_projection (cfg : AuthConfig) :
    FlyteClient cfg = .ok
      { clientId := cfg.appAuth.thirdParty.flyteClientConfig.clientID
        redirectUri := cfg.appAuth.thirdParty.flyteClientConfig.redirectURI
        scopes := cfg.appAuth.thirdParty.flyteClientConfig.scopes
        authorizationMetadataKey := cfg.grpcAuthorizationHeader } ∧
    isErr (FlyteClient cfg) = false :=
  ⟨rfl, rfl⟩

/-- Projection of the scopes_supported field of a successful metadata result. -/
def okScopes (r : Except String OAuth2MetadataResponse) : Option (List String) :=
  match r with
  | .ok doc => some doc.scopesSupported
  | .error _ => none

/-- C3: in self mode OAuth2Metadata performs no network fetch and returns a
document with code_challenge_methods_supported ["S256"],
response_types_supported ["code", "token", "code token"],
token_endpoint_auth_methods_supported ["client_secret_basic"], and
authorize/token/JWKS endpoints resolved against the public base URI. -/
theorem C3_self_mode_metadata (cfg : AuthConfig)
    (httpGet : String → FetchResult)
    (unmarshalResp : String → Option OAuth2MetadataResponse)
    (h : cfg.appAuth.authServerType = .Self) :
    (OAuth2Metadata cfg httpGet unmarshalResp).2 = [] ∧
    (OAuth2Metadata cfg httpGet unmarshalResp).1 = .ok
      { issuer := GetIssuer cfg
        authorizationEndpoint :=
          resolveReference cfg.httpPublicUri authorizeRelativeUrl
        tokenEndpoint := resolveReference cfg.httpPublicUri tokenRelativeUrl
        jwksUri := resolveReference cfg.httpPublicUri jsonWebKeysUrl
        codeChallengeMethodsSupported := ["S256"]
        responseTypesSupported := ["code", "token", "code token"]
        grantTypesSupported := supportedGrantTypes
        scopesSupported := [ScopeAll]
        tokenEndpointAuthMethodsSupported := ["client_secret_basic"] } := by
  constructor <;> simp [OAuth2Metadata, h]

/-- Witness for C3 at a concrete self-mode configuration. -/
theorem C3_self_mode_metadata_witness :
    (OAuth2Metadata cfgSelf dummyGet dummyUnmarshal).2 = [] ∧
    (OAuth2Metadata cfgSelf dummyGet dummyUnmarshal).1 = .ok
      { issuer := GetIssuer cfgSelf
        authorizationEndpoint :=
          resolveReference cfgSelf.httpPublicUri authorizeRelativeUrl
        tokenEndpoint := resolveReference cfgSelf.httpPublicUri tokenRelativeUrl
        jwksUri := resolveReference cfgSelf.httpPublicUri jsonWebKeysUrl
        codeChallengeMethodsSupported := ["S256"]
        responseTypesSupported := ["code", "token", "code token"]
        grantTypesSupported := supportedGrantTypes
        scopesSupported := [ScopeAll]
        tokenEndpointAuthMethodsSupported := ["client_secret_basic"] } :=
  C3_self_mode_metadata cfgSelf dummyGet dummyUnmarshal rfl

/-- C4 counterexample: at a self-mode configuration whose configured scope
set is ["offline", "access_token"], the scopes_supported field of the
returned document is the fixed list [ScopeAll], not the configured set. -/
theorem C4_scopes_counterexample :
    cfgSelf.appAuth.authServerType = .Self ∧
    okScopes (OAuth2Metadata cfgSelf dummyGet dummyUnmarshal).1 = some [ScopeAll] ∧
    okScopes (OAuth2Metadata cfgSelf dummyGet dummyUnmarshal).1 ≠
      some cfgSelf.appAuth.thirdParty.flyteClientConfig.scopes := by
  refine ⟨rfl, ?_, ?_⟩ <;> simp [OAuth2Metadata, okScopes, cfgSelf, ScopeAll]

/-- C4 amended: in self mode the scopes_supported field is always the fixed
single-element list [ScopeAll] (the catch-all scope "all"), independent of
the scope set given in the configuration. -/
theorem C4_scopes_constant (cfg : AuthConfig)
    (httpGet : String → FetchResult)
    (unmarshalResp : String → Option OAuth2MetadataResponse)
    (h : cfg.appAuth.authServerType = .Self) :
    okScopes (OAuth2Metadata cfg httpGet unmarshalResp).1 = some [ScopeAll] := by
  simp [OAuth2Metadata, okScopes, h]

/-- Witness for the amended C4 at a concrete configuration. -/
theorem C4_scopes_constant_witness :
    okScopes (OAuth2Metadata cfgSelf extGet extUnmarshal).1 = some [ScopeAll] :=
  C4_scopes_constant cfgSelf extGet extUnmarshal rfl

/-- C6: in external mode OAuth2Metadata fetches exactly once, from the
discovery URL resolved against the external authorization-server base URL
when that is non-empty and against the OpenID IdP base URL otherwise; a
transport error or an undecodable body yields an error, and a decodable body
yields the decoded document unmodified. -/
theorem C6_external_mode_metadata (cfg : AuthConfig)
    (httpGet : String → FetchResult)
    (unmarshalResp : String → Option OAuth2MetadataResponse)
    (h : cfg.appAuth.authServerType = .External) :
    (OAuth2Metadata cfg httpGet unmarshalResp).2 =
      [externalMetadataURL cfg] ∧
    (httpGet (externalMetadataURL cfg) = .transportError →
      isErr (OAuth2Metadata cfg httpGet unmarshalResp).1 = true) ∧
    (∀ raw, httpGet (externalMetadataURL cfg) = .body raw →
      unmarshalResp raw = none →
      isErr (OAuth2Metadata cfg httpGet unmarshalResp).1 = true) ∧
    (∀ raw doc, httpGet (externalMetadataURL cfg) = .body raw →
      unmarshalResp raw = some doc →
      (OAuth2Metadata cfg httpGet unmarshalResp).1 = .ok doc) := by
  refine ⟨?_, ?_, ?_, ?_⟩
  · rcases hg : httpGet (externalMetadataURL cfg) with _ | raw
    · simp [OAuth2Metadata, h, hg]
    · rcases hu : unmarshalResp raw with _ | doc <;>
        simp [OAuth2Metadata, h, hg, hu]
  · intro hg
    simp [OAuth2Metadata, h, hg, isErr]
  · intro raw hg hu
    simp [OAuth2Metadata, h, hg, hu, isErr]
  · intro raw doc hg hu
    simp [OAuth2Metadata, h, hg, hu]

/-- Witness for C6: a concrete external-mode configuration whose upstream
returns a decodable document, relayed unmodified, fetched from the URL
resolved against the non-empty external base URL. -/
theorem C6_external_mode_metadata_witness :
    (OAuth2Metadata cfgExternal extGet extUnmarshal).2 =
      [externalMetadataURL cfgExternal] ∧
    (OAuth2Metadata cfgExternal extGet extUnmarshal).1 = .ok extDoc :=
  ⟨(C6_external_mode_metadata cfgExternal extGet extUnmarshal rfl).1,
   (C6_external_mode_metadata cfgExternal extGet extUnmarshal rfl).2.2.2
     "raw-discovery-document" extDoc rfl rfl⟩

/-- C5 counterexample: in the insecure run where only the HTTP listener bind
fails, the startup aborts while the gRPC listener is already serving, so a
startup failure does not always abort before any traffic is served. -/
theorem C5_partial_listener_counterexample :
    Event.aborted ∈ serveGatewayInsecure cfgInsecureNoAuth httpBindFailScenario ∧
    Event.grpcServing ∈ serveGatewayInsecure cfgInsecureNoAuth httpBindFailScenario ∧
    serving .grpcServing = true := by
  decide

/-- C5 amended: in secure mode every startup failure aborts before any
serving event; in insecure mode an aborting startup never reaches HTTP
serving, and a failure located before the gRPC bind (auth-context creation
or the gRPC bind itself) aborts before any serving event — but a later
failure (router registration or HTTP bind) aborts with the gRPC listener
already serving. -/
theorem C5_startup_abort_amended (cfg : ServerConfig) (s : Scenario) :
    (Event.aborted ∈ (serveGatewaySecure cfg s).1 →
      ∀ e ∈ (serveGatewaySecure cfg s).1, serving e = false) ∧
    (Event.aborted ∈ serveGatewayInsecure cfg s →
      Event.httpServing ∉ serveGatewayInsecure cfg s) ∧
    ((cfg.security.useAuth && s.authContextFails) = true ∨ s.grpcListenFails = true →
      ∀ e ∈ serveGatewayInsecure cfg s, serving e = false) ∧
    ((cfg.security.useAuth && s.authContextFails) = false →
      s.grpcListenFails = false →
      (s.registerFails = true ∨ s.httpListenFails = true) →
      Event.grpcServing ∈ serveGatewayInsecure cfg s ∧
      Event.aborted ∈ serveGatewayInsecure cfg s) :=
  ⟨secure_abort_before_serving cfg s, insecure_abort_no_httpServing cfg s,
   insecure_early_failure_no_serving cfg s, insecure_late_failure_partial cfg s⟩

/-- Witness for the amended C5: a concrete aborting secure run and a
concrete insecure run aborting after the gRPC listener started serving. -/
theorem C5_startup_abort_amended_witness :
    Event.httpServing ∉ serveGatewayInsecure cfgInsecureNoAuth registerFailScenario ∧
    Event.grpcServing ∈ serveGatewayInsecure cfgInsecureNoAuth registerFailScenario ∧
    Event.aborted ∈ serveGatewayInsecure cfgInsecureNoAuth registerFailScenario ∧
    Event.combinedServing ∉ (serveGatewaySecure cfgAuthOn certFailScenario).1 :=
  ⟨(C5_startup_abort_amended cfgInsecureNoAuth registerFailScenario).2.1 (by decide),
   ((C5_startup_abort_amended cfgInsecureNoAuth registerFailScenario).2.2.2
      (by decide) (by decide) (by decide)).1,
   ((C5_startup_abort_amended cfgInsecureNoAuth registerFailScenario).2.2.2
      (by decide) (by decide) (by decide)).2,
   fun hmem => by
     have := (C5_startup_abort_amended cfgAuthOn certFailScenario).1
       (by decide) _ hmem
     simp [serving] at this⟩

/-- C7: postToIdp returns claims equal to the five response fields on a 200
response whose body decodes to those claims, and fails on any non-200
status regardless of body. -/
theorem C7_userinfo_decoding (resp : IdpResponse) (u : UserInfoResponse) :
    (resp.statusCode = 200 → resp.jsonBody = some u →
      postToIdp resp = .ok u ∧
      ∀ out, postToIdp resp = .ok out →
        out.sub = u.sub ∧ out.name = u.name ∧
        out.preferredUsername = u.preferredUsername ∧
        out.givenName = u.givenName ∧ out.familyName = u.familyName) ∧
    (resp.statusCode ≠ 200 → isErr (postToIdp resp) = true) := by
  constructor
  · intro h200 hbody
    have hok : postToIdp resp = .ok u := by
      simp [postToIdp, h200, hbody]
    refine ⟨hok, ?_⟩
    intro out hout
    rw [hok] at hout
    cases hout
    exact ⟨rfl, rfl, rfl, rfl, rfl⟩
  · intro hne
    simp [postToIdp, hne, isErr]

/-- The canned userinfo payload of TestPostToIdp. -/
def testUserInfo : UserInfoResponse :=
  { sub := "abc123"
    name := "John Smith"
    preferredUsername := "jsmith@company.com"
    givenName := "John"
    familyName := "Smith" }

/-- Witness for C7 at the canned response of TestPostToIdp and at a non-200
response. -/
theorem C7_userinfo_decoding_witness :
    postToIdp { statusCode := 200, jsonBody := some testUserInfo } = .ok testUserInfo ∧
    isErr (postToIdp { statusCode := 403, jsonBody := some testUserInfo }) = true :=
  ⟨((C7_userinfo_decoding { statusCode := 200, jsonBody := some testUserInfo }
      testUserInfo).1 rfl rfl).1,
   (C7_userinfo_decoding { statusCode := 403, jsonBody := some testUserInfo }
      testUserInfo).2 (by decide)⟩

/-- C8: for every configuration the router registers the healthcheck and
openapi endpoints, neither of which is an auth handler, and every registered
route is one of those two, an auth handler, or the gateway mux mounted at
the root. -/
theorem C8_http_router_surface (cfg : ServerConfig)
    (authContext : AuthenticationContext) :
    ("/healthcheck", HandlerKind.healthCheck) ∈ newHTTPServer cfg authContext ∧
    ("/api/v1/openapi", HandlerKind.openapiSpec) ∈ newHTTPServer cfg authContext ∧
    isAuthHandler .healthCheck = false ∧
    isAuthHandler .openapiSpec = false ∧
    (∀ r ∈ newHTTPServer cfg authContext,
      r = ("/healthcheck", .healthCheck) ∨
      r = ("/api/v1/openapi", .openapiSpec) ∨
      isAuthHandler r.2 = true ∨
      r = ("/", .gatewayMux cfg.security.useAuth)) := by
  rcases h1 : cfg.security.useAuth <;>
    rcases h2 : userInfoConfigured authContext <;>
      refine ⟨?_, ?_, rfl, rfl, ?_⟩ <;>
        simp [newHTTPServer, h1, h2, isAuthHandler]

/-- Witness for C8 at a concrete configuration: both unauthenticated
endpoints are registered and the login route is covered as an auth handler. -/
theorem C8_http_router_surface_witness :
    ("/healthcheck", HandlerKind.healthCheck) ∈
      newHTTPServer cfgAuthOn authCtxWithUserInfo ∧
    ("/api/v1/openapi", HandlerKind.openapiSpec) ∈
      newHTTPServer cfgAuthOn authCtxWithUserInfo ∧
    (("/login", HandlerKind.loginHandler) =
        ("/healthcheck", HandlerKind.healthCheck) ∨
      ("/login", HandlerKind.loginHandler) =
        ("/api/v1/openapi", HandlerKind.openapiSpec) ∨
      isAuthHandler HandlerKind.loginHandler = true ∨
      ("/login", HandlerKind.loginHandler) =
        ("/", HandlerKind.gatewayMux cfgAuthOn.security.useAuth)) :=
  ⟨(C8_http_router_surface cfgAuthOn authCtxWithUserInfo).1,
   (C8_http_router_surface cfgAuthOn authCtxWithUserInfo).2.1,
   (C8_http_router_surface cfgAuthOn authCtxWithUserInfo).2.2.2.2
     ("/login", HandlerKind.loginHandler) (by decide)⟩

/-- C10: under authentication the /me endpoint is registered exactly when a
non-empty userinfo URL is configured, and otherwise /me falls through to the
gateway mux; the login, callback and metadata handlers and the
cookie-to-metadata gateway option exist exactly when authentication is
enabled. -/
theorem C10_me_endpoint_registration (cfg : ServerConfig)
    (authContext : AuthenticationContext) :
    (cfg.security.useAuth = true →
      ((("/me", HandlerKind.meHandler) ∈ newHTTPServer cfg authContext) ↔
        userInfoConfigured authContext = true) ∧
      (userInfoConfigured authContext = false →
        muxDispatch (newHTTPServer cfg authContext) "/me" =
          some (.gatewayMux true)) ∧
      ("/login", HandlerKind.loginHandler) ∈ newHTTPServer cfg authContext ∧
      ("/callback", HandlerKind.callbackHandler) ∈ newHTTPServer cfg authContext ∧
      (MetadataEndpoint, HandlerKind.metadataRedirectHandler) ∈
        newHTTPServer cfg authContext ∧
      ("/", HandlerKind.gatewayMux true) ∈ newHTTPServer cfg authContext) ∧
    (cfg.security.useAuth = false →
      (∀ r ∈ newHTTPServer cfg authContext, isAuthHandler r.2 = false) ∧
      ("/", HandlerKind.gatewayMux false) ∈ newHTTPServer cfg authContext) := by
  rcases h1 : cfg.security.useAuth <;> rcases h2 : userInfoConfigured authContext <;>
    constructor <;> intro hu <;> simp_all [newHTTPServer, muxDispatch,
      MetadataEndpoint, isAuthHandler]

/-- Witness for C10: with authentication on and no userinfo URL configured,
/me is absent and dispatches to the gateway mux; with a userinfo URL it is
registered; with authentication off no auth handler is registered. -/
theorem C10_me_endpoint_registration_witness :
    muxDispatch (newHTTPServer cfgAuthOn authCtxNoUserInfo) "/me" =
      some (.gatewayMux true) ∧
    (("/me", HandlerKind.meHandler) ∈ newHTTPServer cfgAuthOn authCtxWithUserInfo) ∧
    ("/", HandlerKind.gatewayMux false) ∈
      newHTTPServer cfgInsecureNoAuth authCtxNoUserInfo :=
  ⟨((C10_me_endpoint_registration cfgAuthOn authCtxNoUserInfo).1 rfl).2.1 rfl,
   ((C10_me_endpoint_registration cfgAuthOn authCtxWithUserInfo).1 rfl).1.mpr rfl,
   ((C10_me_endpoint_registration cfgInsecureNoAuth authCtxNoUserInfo).2 rfl).2⟩

end FlyteAdmin
